import Mathlib

/-!
Verification of the membership-application form logic (src/App.tsx, src/types.ts).

The TypeScript/React component is shallowly embedded:
- `FormData` mirrors the interface in src/types.ts (13 string fields; the enum-typed
  fields are strings whose empty value denotes "unset", exactly as in the source).
- The attachment (`profileImage`) is `Option String` (`none` = not uploaded,
  matching the nullable state variable).
- The error object (`errors` / `newErrors` in the source) is an association list
  `List (ErrorKey × String)` in insertion order, mirroring a JS object whose keys
  iterate in insertion order.  The JS pattern `{...prev, [k]: undefined}` leaves the
  key present with value `undefined`; every read of the error set in the program
  (inline display truthiness, entry lookup) treats that identically to an absent
  key, so it is modelled as removal of the entry.
- Event handlers become pure state-transition functions on `AppState`.
- Canvas arithmetic (JS numbers) is modelled over `ℚ`.
- Calendar dates (`new Date`) are modelled structurally as year/month/day integers
  (`getMonth` is 0-based in JS; only differences of months are used, so the base
  does not matter).
-/

/-- src/types.ts: interface FormData.  The union-typed fields
(membershipType, gender, guardianRelationship) are strings; the empty string is
the "unset" member of each union. -/
structure FormData where
  affiliation : String
  nameKorean : String
  nameEnglish : String
  membershipType : String
  gender : String
  email : String
  phoneApplicant : String
  guardianRelationship : String
  guardianName : String
  guardianPhone : String
  address : String
  signature : String
  dateOfBirth : String
deriving Repr, DecidableEq

/-- The 13 field names of FormData (`keyof FormData` in the source). -/
inductive FormDataKey where
  | affiliation | nameKorean | nameEnglish | membershipType | gender | email
  | phoneApplicant | guardianRelationship | guardianName | guardianPhone
  | address | signature | dateOfBirth
deriving Repr, DecidableEq

/-- Key type of the error object in the source:
`keyof FormData | 'profileImage'` (the extra guardian keys in the source's type
annotation are already members of FormData). -/
inductive ErrorKey where
  | field (k : FormDataKey)
  | profileImage
deriving Repr, DecidableEq

/-- Read a FormData field by name (`formData[name]`). -/
def getFormField (fd : FormData) : FormDataKey → String
  | .affiliation => fd.affiliation
  | .nameKorean => fd.nameKorean
  | .nameEnglish => fd.nameEnglish
  | .membershipType => fd.membershipType
  | .gender => fd.gender
  | .email => fd.email
  | .phoneApplicant => fd.phoneApplicant
  | .guardianRelationship => fd.guardianRelationship
  | .guardianName => fd.guardianName
  | .guardianPhone => fd.guardianPhone
  | .address => fd.address
  | .signature => fd.signature
  | .dateOfBirth => fd.dateOfBirth

/-- Write a FormData field by name (`{ ...prev, [name]: value }`). -/
def setFormField (fd : FormData) (name : FormDataKey) (value : String) : FormData :=
  match name with
  | .affiliation => { fd with affiliation := value }
  | .nameKorean => { fd with nameKorean := value }
  | .nameEnglish => { fd with nameEnglish := value }
  | .membershipType => { fd with membershipType := value }
  | .gender => { fd with gender := value }
  | .email => { fd with email := value }
  | .phoneApplicant => { fd with phoneApplicant := value }
  | .guardianRelationship => { fd with guardianRelationship := value }
  | .guardianName => { fd with guardianName := value }
  | .guardianPhone => { fd with guardianPhone := value }
  | .address => { fd with address := value }
  | .signature => { fd with signature := value }
  | .dateOfBirth => { fd with dateOfBirth := value }

/-- The error set: a JS object from error keys to message strings, kept as an
association list in insertion order (JS objects iterate string keys in insertion
order). Keys are unique by construction everywhere the program builds one. -/
abbrev ErrorSet := List (ErrorKey × String)

/-- `errors[k]` — look a key up in the error object. -/
def lookupError (es : ErrorSet) (k : ErrorKey) : Option String :=
  (List.find? (fun e => e.1 == k) es).map (fun e => e.2)

/-- `{ ...prev, [k]: undefined }` under the guard that the entry was present:
observationally the entry for `k` is gone afterwards (see header note). -/
def removeError (es : ErrorSet) (k : ErrorKey) : ErrorSet :=
  List.filter (fun e => e.1 != k) es

/-- The fixed per-field message emitted by validateForm (src/App.tsx 125–138). -/
def errorMessage : ErrorKey → String
  | .profileImage => "프로필 사진을 업로드해주세요."
  | .field .affiliation => "소속 단체명을 선택해주세요."
  | .field .nameKorean => "한글 성명을 입력해주세요."
  | .field .nameEnglish => "영문 성명을 입력해주세요."
  | .field .membershipType => "가입 구분을 선택해주세요."
  | .field .gender => "성별을 선택해주세요."
  | .field .phoneApplicant => "신청자 핸드폰 번호를 입력해주세요."
  | .field .email => "이메일 주소를 입력해주세요."
  | .field .guardianRelationship => "보호자와의 관계를 선택해주세요."
  | .field .guardianName => "보호자 성명을 입력해주세요."
  | .field .guardianPhone => "보호자 핸드폰 번호를 입력해주세요."
  | .field .address => "전체 주소를 입력해주세요."
  | .field .signature => "서명을 입력해주세요."
  | .field .dateOfBirth => "생년월일을 입력해주세요."

/-- The order in which validateForm tests and inserts required values
(src/App.tsx 125–138): attachment presence first, then the 13 fields in source
order.  These are exactly the 14 required values of the form. -/
def checkOrder : List ErrorKey :=
  [.profileImage, .field .affiliation, .field .nameKorean, .field .nameEnglish,
   .field .membershipType, .field .gender, .field .email, .field .phoneApplicant,
   .field .guardianRelationship, .field .guardianName, .field .guardianPhone,
   .field .address, .field .signature, .field .dateOfBirth]

/-- Truthiness test of the source's guards: `!profileImage` and `!formData.x`
(a string is falsy exactly when empty). `true` = the required value is missing. -/
def missingValue (fd : FormData) (profileImage : Option String) : ErrorKey → Bool
  | .profileImage => profileImage.isNone
  | .field k => getFormField fd k == ""

/-- src/App.tsx 123–142, `validateForm`: builds `newErrors` by testing each
required value in source order, stores it as the new error state (done by the
caller of this pure translation), and returns
`Object.keys(newErrors).length === 0`.  Result: `(newErrors, boolean)`. -/
def validateForm (fd : FormData) (profileImage : Option String) :
    ErrorSet × Bool :=
  let newErrors : ErrorSet :=
    (if profileImage.isNone then [(ErrorKey.profileImage, errorMessage .profileImage)] else [])
    ++ (if fd.affiliation == "" then [(ErrorKey.field .affiliation, errorMessage (.field .affiliation))] else [])
    ++ (if fd.nameKorean == "" then [(ErrorKey.field .nameKorean, errorMessage (.field .nameKorean))] else [])
    ++ (if fd.nameEnglish == "" then [(ErrorKey.field .nameEnglish, errorMessage (.field .nameEnglish))] else [])
    ++ (if fd.membershipType == "" then [(ErrorKey.field .membershipType, errorMessage (.field .membershipType))] else [])
    ++ (if fd.gender == "" then [(ErrorKey.field .gender, errorMessage (.field .gender))] else [])
    ++ (if fd.email == "" then [(ErrorKey.field .email, errorMessage (.field .email))] else [])
    ++ (if fd.phoneApplicant == "" then [(ErrorKey.field .phoneApplicant, errorMessage (.field .phoneApplicant))] else [])
    ++ (if fd.guardianRelationship == "" then [(ErrorKey.field .guardianRelationship, errorMessage (.field .guardianRelationship))] else [])
    ++ (if fd.guardianName == "" then [(ErrorKey.field .guardianName, errorMessage (.field .guardianName))] else [])
    ++ (if fd.guardianPhone == "" then [(ErrorKey.field .guardianPhone, errorMessage (.field .guardianPhone))] else [])
    ++ (if fd.address == "" then [(ErrorKey.field .address, errorMessage (.field .address))] else [])
    ++ (if fd.signature == "" then [(ErrorKey.field .signature, errorMessage (.field .signature))] else [])
    ++ (if fd.dateOfBirth == "" then [(ErrorKey.field .dateOfBirth, errorMessage (.field .dateOfBirth))] else [])
  (newErrors, newErrors.isEmpty)

/-- The all-empty record: the initial `formData` state (src/App.tsx 47–54). -/
def emptyFormData : FormData :=
  { affiliation := "", nameKorean := "", nameEnglish := "", membershipType := ""
  , gender := "", email := "", phoneApplicant := "", guardianRelationship := ""
  , guardianName := "", guardianPhone := "", address := "", signature := ""
  , dateOfBirth := "" }

/-- The component state relevant to the embedded handlers (src/App.tsx 47–63). -/
structure AppState where
  formData : FormData
  profileImage : Option String
  englishNameWarning : String
  isPledgeModalOpen : Bool
  isBenefitsModalOpen : Bool
  pledgeChecked : Bool
  benefitsChecked : Bool
  errors : ErrorSet
deriving Repr, DecidableEq

/-- The initial component state: every field empty, no attachment, no errors,
no warning, modals closed, checkboxes unchecked (src/App.tsx 47–63). -/
def initialState : AppState :=
  { formData := emptyFormData, profileImage := none, englishNameWarning := ""
  , isPledgeModalOpen := false, isBenefitsModalOpen := false
  , pledgeChecked := false, benefitsChecked := false, errors := [] }

/-- src/App.tsx 71–77, `handleChange`: store the raw value verbatim under the
field name; if the error object currently holds a (truthy) entry for that name,
replace it by `undefined` — observationally, drop the entry. -/
def handleChange (st : AppState) (name : FormDataKey) (value : String) : AppState :=
  { st with
    formData := setFormField st.formData name value
  , errors :=
      if (lookupError st.errors (.field name)).isSome then
        removeError st.errors (.field name)
      else st.errors }

/-- Character class of the source regex `/^[A-Za-z\s-]*$/` applied per
character; `\s` is modelled as `Char.isWhitespace`. -/
def latinChar (c : Char) : Bool :=
  (decide (c ≥ 'A') && decide (c ≤ 'Z')) || (decide (c ≥ 'a') && decide (c ≤ 'z'))
    || c.isWhitespace || c == '-'

/-- Whole-string test of the source regex `/^[A-Za-z\s-]*$/` (anchored both
ends, star: the empty string matches): every character of the string is in the
class. -/
def latinNameTest (s : String) : Bool :=
  s.data.all latinChar

/-- src/App.tsx 79–89, `handleEnglishNameChange`: if the whole value matches the
regex, store it, clear the warning, and drop any existing nameEnglish error;
otherwise leave formData and errors alone and set the warning message. -/
def handleEnglishNameChange (st : AppState) (value : String) : AppState :=
  if latinNameTest value then
    { st with
      formData := { st.formData with nameEnglish := value }
    , englishNameWarning := ""
    , errors :=
        if (lookupError st.errors (.field .nameEnglish)).isSome then
          removeError st.errors (.field .nameEnglish)
        else st.errors }
  else
    { st with englishNameWarning := "영문, 공백, 하이픈(-)만 입력 가능합니다." }

/-- A calendar date as the source reads it off a `Date` object:
`getFullYear`, `getMonth`, `getDate`.  `getMonth` is 0-based in JS; only
differences and equalities of months are used, so the base is irrelevant. -/
structure DateRec where
  year : Int
  month : Int
  day : Int
deriving Repr, DecidableEq

/-- src/App.tsx 104–121, `calculateGrade`: empty birth date yields "".
Otherwise `age = today.year − birth.year`, decremented when the birthday has
not occurred yet this year; `koreanAge = age + 1`; then the descending
threshold match.  The empty-string input is modelled as `none`. -/
def calculateGrade (birthDate : Option DateRec) (today : DateRec) : String :=
  match birthDate with
  | none => ""
  | some birth =>
    let age0 : Int := today.year - birth.year
    let m : Int := today.month - birth.month
    let age : Int := if m < 0 ∨ (m = 0 ∧ today.day < birth.day) then age0 - 1 else age0
    let koreanAge : Int := age + 1
    if koreanAge ≥ 17 then "고" ++ toString (koreanAge - 16)
    else if koreanAge ≥ 14 then "중" ++ toString (koreanAge - 13)
    else if koreanAge ≥ 8 then "초" ++ toString (koreanAge - 7)
    else if koreanAge ≥ 1 then "미취학"
    else ""

/-- The grade rule as the specification words it (§4.2): age is the calendar
age under the has-birthday-occurred-yet rule, koreanAge = age + 1, and the
buckets are matched by threshold in descending order. -/
def gradeSpec (birthDate : Option DateRec) (today : DateRec) : String :=
  match birthDate with
  | none => ""
  | some birth =>
    let age : Int := (today.year - birth.year) -
      (if today.month < birth.month ∨ (today.month = birth.month ∧ today.day < birth.day)
       then 1 else 0)
    let koreanAge : Int := age + 1
    if koreanAge ≥ 17 then "고" ++ toString (koreanAge - 16)
    else if koreanAge ≥ 14 then "중" ++ toString (koreanAge - 13)
    else if koreanAge ≥ 8 then "초" ++ toString (koreanAge - 7)
    else if koreanAge ≥ 1 then "미취학"
    else ""

/-- The three events that can reach the pledge state (src/App.tsx 371–374 and
405–407): the checkbox firing with `checked = true`, the checkbox firing with
`checked = false`, and the modal's confirm button.  The confirm button exists
only while the modal is rendered, so that event carries the guard in the step
function below. -/
inductive PledgeEvent where
  | toggleOn
  | toggleOff
  | modalConfirm
deriving Repr, DecidableEq

/-- The pledge-track transition function.
Checkbox onChange (src/App.tsx 372): `checked` → only opens the modal
(`setIsPledgeModalOpen(true)`), leaving `pledgeChecked` untouched; unchecked →
`setPledgeChecked(false)`.  Modal confirm (src/App.tsx 406): closes the modal
and sets `pledgeChecked` to true; it is a no-op when the modal is not rendered
(the button does not exist then). -/
def pledgeStep (st : AppState) : PledgeEvent → AppState
  | .toggleOn => { st with isPledgeModalOpen := true }
  | .toggleOff => { st with pledgeChecked := false }
  | .modalConfirm =>
      if st.isPledgeModalOpen then
        { st with isPledgeModalOpen := false, pledgeChecked := true }
      else st

/-- src/App.tsx 380: `disabled={!pledgeChecked}` on the submit button. -/
def submitButtonDisabled (st : AppState) : Bool :=
  !st.pledgeChecked

/-- An in-memory raster as the geometry code reads it: `canvas.width`,
`canvas.height` (JS numbers, modelled over ℚ). -/
structure Canvas where
  width : ℚ
  height : ℚ
deriving Repr, DecidableEq

/-- src/App.tsx 169–170. -/
def a4Width : ℚ := 1240

/-- src/App.tsx 170. -/
def a4Height : ℚ := 1754

/-- src/App.tsx 187. -/
def contentMargin : ℚ := 50

/-- src/App.tsx 188. -/
def contentStartY : ℚ := 160

/-- src/App.tsx 189: `a4Width - (contentMargin * 2)`. -/
def availableWidth : ℚ := a4Width - contentMargin * 2

/-- src/App.tsx 190: `a4Height - contentStartY - contentMargin`. -/
def availableHeight : ℚ := a4Height - contentStartY - contentMargin

/-- src/App.tsx 191: `Math.min(availableWidth / canvas.width, availableHeight / canvas.height)`. -/
def ratio (c : Canvas) : ℚ :=
  min (availableWidth / c.width) (availableHeight / c.height)

/-- src/App.tsx 192. -/
def newWidth (c : Canvas) : ℚ := c.width * ratio c

/-- src/App.tsx 193. -/
def newHeight (c : Canvas) : ℚ := c.height * ratio c

/-- src/App.tsx 194: the x position the capture is drawn at. -/
def drawX (c : Canvas) : ℚ := (a4Width - newWidth c) / 2

/-- src/App.tsx 195: the y position the capture is drawn at. -/
def drawY (c : Canvas) : ℚ := contentStartY + (availableHeight - newHeight c) / 2

/-- The exported artifact: where the capture was drawn on the A4 canvas and the
download filename (src/App.tsx 192–203). -/
structure Artifact where
  x : ℚ
  y : ℚ
  w : ℚ
  h : ℚ
  filename : String
deriving Repr, DecidableEq

/-- The rejection of the `await html2canvas(...)` promise (src/App.tsx 165). -/
inductive CaptureError where
  | captureFailed
deriving Repr, DecidableEq

/-- Observable outcome of one run of the composition part of handleSubmit:
the visibility of the `.print-ignore` elements when the run is over, and the
artifact, if one was produced. -/
structure CompositionResult where
  printIgnoreVisible : Bool
  artifact : Option Artifact
deriving Repr, DecidableEq

/-- src/App.tsx 200–203: filename
`${formData.nameKorean}_${formattedDate}_입회신청서.jpeg`; the locale-formatted
date string is passed in (it comes from the environment clock). -/
def artifactFilename (nameKorean formattedDate : String) : String :=
  nameKorean ++ "_" ++ formattedDate ++ "_입회신청서.jpeg"

/-- src/App.tsx 160–205, the composition pipeline: hide the `.print-ignore`
elements, await the capture, restore visibility, draw the scaled capture
centered on the A4 canvas, and trigger the download.  The `await` is modelled
by matching on the capture result: when the promise rejects, the async function
exits at that line and none of the following statements run — in particular the
restore on line 167 does not. -/
def runComposition (nameKorean formattedDate : String)
    (capture : Except CaptureError Canvas) : CompositionResult :=
  -- line 163: elementsToHide.forEach(hidden)
  match capture with
  | .error _ =>
      -- the rejection propagates out of handleSubmit; visibility is never restored
      { printIgnoreVisible := false, artifact := none }
  | .ok canvas =>
      -- line 167: elementsToHide.forEach(visible), then lines 169–204
      { printIgnoreVisible := true
      , artifact := some
          { x := drawX canvas, y := drawY canvas
          , w := newWidth canvas, h := newHeight canvas
          , filename := artifactFilename nameKorean formattedDate } }

/-- What one submit attempt does, beyond the state update (src/App.tsx 145–206):
either the validation-failure early return (recording which element, if any,
was focused and scrolled), or the pledge-gate alert early return, or a run of
the composition pipeline. -/
inductive SubmitOutcome where
  | validationFailed (focused : Option ErrorKey)
  | gateAlert (message : String)
  | pipelineRan (result : CompositionResult)
deriving Repr, DecidableEq

/-- src/App.tsx 145–206, `handleSubmit`.  `dom k` says whether
`document.getElementById(k)` finds an element.  Note the focus path reads the
closed-over `errors` state variable — the value from before this submit attempt
— because `setErrors(newErrors)` inside validateForm does not change the
variable until the next render; `Object.keys(errors)[0]` on an empty object is
`undefined`, and `getElementById` then finds nothing. -/
def handleSubmit (st : AppState) (dom : ErrorKey → Bool) (formattedDate : String)
    (capture : Except CaptureError Canvas) : AppState × SubmitOutcome :=
  let v := validateForm st.formData st.profileImage
  let st1 := { st with errors := v.1 }
  if v.2 then
    if st.pledgeChecked then
      (st1, .pipelineRan (runComposition st.formData.nameKorean formattedDate capture))
    else
      (st1, .gateAlert "서약서에 동의해주셔야 제출이 가능합니다.")
  else
    let firstErrorKey := (List.map (fun e => e.1) st.errors).head?
    let focused : Option ErrorKey :=
      match firstErrorKey with
      | none => none
      | some k => if dom k then some k else none
    (st1, .validationFailed focused)

/-- A fully filled record (every string field non-empty). -/
def sampleFormData : FormData :=
  { affiliation := "서울로봇고등학교", nameKorean := "홍길동", nameEnglish := "Hong Gil-Dong"
  , membershipType := "개인", gender := "남", email := "hong@example.com"
  , phoneApplicant := "010-1234-5678", guardianRelationship := "부"
  , guardianName := "홍판서", guardianPhone := "010-8765-4321"
  , address := "서울특별시 강남구", signature := "홍길동", dateOfBirth := "2010-03-01" }

/-- A fully filled, pledge-unconfirmed state with an attachment present. -/
def sampleStatePledgeOff : AppState :=
  { formData := sampleFormData, profileImage := some "data-url"
  , englishNameWarning := "", isPledgeModalOpen := false, isBenefitsModalOpen := false
  , pledgeChecked := false, benefitsChecked := false, errors := [] }

/-- The same state with the pledge confirmed. -/
def sampleStatePledgeOn : AppState :=
  { sampleStatePledgeOff with pledgeChecked := true }

section Lemmas

/-- Pushing one element of the check chain through filter-then-map. -/
theorem filter_map_cons_step {α β : Type} (p : α → Bool) (f : α → β) (a : α) (l : List α) :
    (List.filter p (a :: l)).map f =
      (if p a then [f a] else []) ++ (List.filter p l).map f := by
  by_cases h : p a = true <;> simp [List.filter_cons, h]

/-- The error list built by validateForm is the check order filtered to the
missing values, each paired with its fixed message. -/
theorem validateForm_errors_eq (fd : FormData) (img : Option String) :
    (validateForm fd img).1 =
      (checkOrder.filter (missingValue fd img)).map (fun k => (k, errorMessage k)) := by
  simp only [checkOrder, filter_map_cons_step, List.filter_nil, List.map_nil,
    List.append_nil, missingValue, getFormField, validateForm, List.append_assoc]

/-- The boolean validateForm returns is the emptiness of the error list it
stores (`Object.keys(newErrors).length === 0`). -/
theorem validateForm_snd (fd : FormData) (img : Option String) :
    (validateForm fd img).2 = (validateForm fd img).1.isEmpty := by
  simp only [validateForm]

/-- Filtering a duplicate-free list in which exactly one element satisfies the
predicate yields exactly that element. -/
theorem filter_eq_singleton_of_unique {α : Type} (p : α → Bool) (l : List α) (f : α)
    (hnd : l.Nodup) (hmem : f ∈ l) (hpf : p f = true)
    (hothers : ∀ g ∈ l, g ≠ f → p g = false) :
    l.filter p = [f] := by
  induction l with
  | nil => cases hmem
  | cons a l ih =>
    have hnd2 := List.nodup_cons.mp hnd
    rcases List.mem_cons.mp hmem with rfl | hmem2
    · rw [List.filter_cons_of_pos hpf]
      have hrest : l.filter p = [] := by
        apply List.filter_eq_nil_iff.mpr
        intro g hg
        have hgf : g ≠ f := fun hgf => hnd2.1 (hgf ▸ hg)
        simp [hothers g (List.mem_cons_of_mem _ hg) hgf]
      rw [hrest]
    · have haf : a ≠ f := fun haf => hnd2.1 (haf ▸ hmem2)
      rw [List.filter_cons_of_neg (by simp [hothers a (List.mem_cons_self a l) haf])]
      exact ih hnd2.2 hmem2 (fun g hg hgf => hothers g (List.mem_cons_of_mem _ hg) hgf)

end Lemmas

/-- C1 (amended: the form has 14 required values — the 13 string fields of
FormData plus the profile-image attachment, listed in `checkOrder`):
validateForm returns `true` and an empty ErrorSet exactly when all 14 required
values are non-empty/present; if exactly one of them is missing, it returns
`false` and the ErrorSet is exactly the one entry keyed by that value with its
fixed message. -/
theorem validateForm_characterization (fd : FormData) (img : Option String) :
    ((validateForm fd img).2 = true ↔ ∀ k ∈ checkOrder, missingValue fd img k = false) ∧
    ((validateForm fd img).2 = true ↔ (validateForm fd img).1 = []) ∧
    (∀ f ∈ checkOrder, missingValue fd img f = true →
      (∀ g ∈ checkOrder, g ≠ f → missingValue fd img g = false) →
      (validateForm fd img).1 = [(f, errorMessage f)] ∧ (validateForm fd img).2 = false) := by
  have hempty : (validateForm fd img).2 = true ↔ (validateForm fd img).1 = [] := by
    rw [validateForm_snd, List.isEmpty_iff]
  refine ⟨?_, hempty, ?_⟩
  · rw [hempty, validateForm_errors_eq, List.map_eq_nil_iff, List.filter_eq_nil_iff]
    constructor
    · intro h k hk
      simp [h k hk]
    · intro h k hk
      simp [h k hk]
  · intro f hf hmiss hothers
    have h1 : (validateForm fd img).1 = [(f, errorMessage f)] := by
      rw [validateForm_errors_eq,
        filter_eq_singleton_of_unique (missingValue fd img) checkOrder f (by decide) hf hmiss hothers]
      rfl
    refine ⟨h1, ?_⟩
    rw [validateForm_snd, h1]
    rfl

/-- Witness for C1: the fully filled record with the attachment missing has
exactly the attachment error and validateForm returns false. -/
theorem validateForm_characterization_witness :
    (validateForm sampleFormData none).1 =
        [(ErrorKey.profileImage, "프로필 사진을 업로드해주세요.")] ∧
      (validateForm sampleFormData none).2 = false :=
  (validateForm_characterization sampleFormData none).2.2 .profileImage
    (by decide) (by decide) (by decide)

/-- C1 as stated is false on the code: the all-empty record with no attachment
misses every required value, and the resulting ErrorSet has 14 entries, not 15
— the form has 14 required values (13 FormData string fields + attachment),
not the claimed 15 (14 fields + attachment). -/
theorem validateForm_not_fifteen :
    (validateForm emptyFormData none).1.length = 14 ∧
      ¬(validateForm emptyFormData none).1.length = 15 ∧
      checkOrder.length = 14 := by
  refine ⟨by decide, by decide, by decide⟩



section Lemmas

/-- Looking up the removed key finds nothing. -/
theorem lookupError_removeError_self (es : ErrorSet) (k : ErrorKey) :
    lookupError (removeError es k) k = none := by
  induction es with
  | nil => rfl
  | cons e es ih =>
    by_cases h : e.1 = k
    · simp only [removeError, List.filter_cons] at ih ⊢
      simp [h, ih]
    · have hbk : (e.1 != k) = true := by simp [h]
      have hbe : (e.1 == k) = false := by simp [h]
      simp only [removeError, List.filter_cons, hbk, if_true, lookupError,
        List.find?_cons, hbe] at ih ⊢
      exact ih

/-- Removing one key leaves the lookup of every other key unchanged. -/
theorem lookupError_removeError_other (es : ErrorSet) (k e : ErrorKey) (h : e ≠ k) :
    lookupError (removeError es k) e = lookupError es e := by
  induction es with
  | nil => rfl
  | cons x es ih =>
    by_cases hxk : x.1 = k
    · have hxe : (x.1 == e) = false := beq_eq_false_iff_ne.mpr (by rw [hxk]; exact h.symm)
      have hbk : (x.1 != k) = false := by simp [hxk]
      have h1 : removeError (x :: es) k = removeError es k := by
        simp [removeError, List.filter_cons, hbk]
      have h2 : lookupError (x :: es) e = lookupError es e := by
        simp [lookupError, List.find?_cons, hxe]
      rw [h1, h2, ih]
    · have hbk : (x.1 != k) = true := by simp [hxk]
      have h1 : removeError (x :: es) k = x :: removeError es k := by
        simp [removeError, List.filter_cons, hbk]
      by_cases hxe : (x.1 == e) = true
      · simp [h1, lookupError, List.find?_cons, hxe]
      · have hxe2 : (x.1 == e) = false := by simpa using hxe
        rw [h1]
        have h2 : lookupError (x :: removeError es k) e = lookupError (removeError es k) e := by
          simp [lookupError, List.find?_cons, hxe2]
        have h3 : lookupError (x :: es) e = lookupError es e := by
          simp [lookupError, List.find?_cons, hxe2]
        rw [h2, h3, ih]

end Lemmas

/-- C2: calculateGrade returns "" on an empty birth date; otherwise it computes
the calendar age with the has-birthday-occurred-yet decrement, adds 1 for the
Korean age, and picks the first matching bucket in descending threshold order —
exactly the rule the specification states (gradeSpec). -/
theorem calculateGrade_eq_gradeSpec (birthDate : Option DateRec) (today : DateRec) :
    calculateGrade birthDate today = gradeSpec birthDate today := by
  cases birthDate with
  | none => rfl
  | some birth =>
    simp only [calculateGrade, gradeSpec]
    by_cases h : today.month < birth.month ∨ (today.month = birth.month ∧ today.day < birth.day)
    · have h2 : today.month - birth.month < 0 ∨
          (today.month - birth.month = 0 ∧ today.day < birth.day) := by omega
      rw [if_pos h2, if_pos h]
    · have h2 : ¬(today.month - birth.month < 0 ∨
          (today.month - birth.month = 0 ∧ today.day < birth.day)) := by omega
      rw [if_neg h2, if_neg h]
      simp

/-- C3: the Latin-name update accepts exactly the strings matching
`/^[A-Za-z\s-]*$/`; on acceptance it stores the value, clears the transient
warning, and drops any nameEnglish error; on rejection it leaves the record and
the ErrorSet unchanged and sets the fixed warning message. -/
theorem handleEnglishNameChange_spec (st : AppState) (value : String) :
    (latinNameTest value = true →
      (handleEnglishNameChange st value).formData.nameEnglish = value ∧
      (handleEnglishNameChange st value).englishNameWarning = "" ∧
      lookupError (handleEnglishNameChange st value).errors (.field .nameEnglish) = none) ∧
    (latinNameTest value = false →
      (handleEnglishNameChange st value).formData = st.formData ∧
      (handleEnglishNameChange st value).errors = st.errors ∧
      (handleEnglishNameChange st value).englishNameWarning =
        "영문, 공백, 하이픈(-)만 입력 가능합니다.") := by
  constructor
  · intro hacc
    by_cases hprev : (lookupError st.errors (.field .nameEnglish)).isSome
    · simp [handleEnglishNameChange, hacc, hprev, lookupError_removeError_self]
    · refine ⟨by simp [handleEnglishNameChange, hacc], by simp [handleEnglishNameChange, hacc], ?_⟩
      simp only [handleEnglishNameChange, hacc, if_true, if_neg hprev]
      exact Option.not_isSome_iff_eq_none.mp hprev
  · intro hrej
    simp [handleEnglishNameChange, hrej]

/-- Witness for C3: a valid Latin name is stored and clears the warning; a
digit-bearing input is rejected, leaving state untouched and setting the
warning. -/
theorem handleEnglishNameChange_spec_witness :
    ((handleEnglishNameChange initialState "Hong Gil-Dong").formData.nameEnglish =
        "Hong Gil-Dong" ∧
      (handleEnglishNameChange initialState "Hong Gil-Dong").englishNameWarning = "" ∧
      lookupError (handleEnglishNameChange initialState "Hong Gil-Dong").errors
          (.field .nameEnglish) = none) ∧
    ((handleEnglishNameChange initialState "Hong2").formData = initialState.formData ∧
      (handleEnglishNameChange initialState "Hong2").errors = initialState.errors ∧
      (handleEnglishNameChange initialState "Hong2").englishNameWarning =
        "영문, 공백, 하이픈(-)만 입력 가능합니다.") :=
  ⟨(handleEnglishNameChange_spec initialState "Hong Gil-Dong").1 (by decide),
   (handleEnglishNameChange_spec initialState "Hong2").2 (by decide)⟩

/-- C4: handleChange stores the raw value verbatim under the given field name
(whatever the value, empty included), drops that field's error entry, and
leaves every other record field and every other error entry unchanged. -/
theorem handleChange_spec (st : AppState) (name : FormDataKey) (value : String) :
    getFormField (handleChange st name value).formData name = value ∧
    (∀ k : FormDataKey, k ≠ name →
      getFormField (handleChange st name value).formData k = getFormField st.formData k) ∧
    lookupError (handleChange st name value).errors (.field name) = none ∧
    (∀ e : ErrorKey, e ≠ .field name →
      lookupError (handleChange st name value).errors e = lookupError st.errors e) := by
  refine ⟨?_, ?_, ?_, ?_⟩
  · cases name <;> rfl
  · intro k hk
    cases name <;> cases k <;> simp_all [getFormField, setFormField, handleChange]
  · by_cases hprev : (lookupError st.errors (.field name)).isSome
    · simp [handleChange, hprev, lookupError_removeError_self]
    · simp only [handleChange, if_neg hprev]
      exact Option.not_isSome_iff_eq_none.mp hprev
  · intro e he
    by_cases hprev : (lookupError st.errors (.field name)).isSome
    · simp [handleChange, hprev, lookupError_removeError_other st.errors (.field name) e he]
    · simp [handleChange, hprev]

/-- Witness for C4: editing the email field of a state carrying both an email
error and an address error stores the value, drops the email error, and keeps
the address error. -/
theorem handleChange_spec_witness :
    getFormField (handleChange
        { initialState with errors :=
            [(.field .email, "이메일 주소를 입력해주세요."),
             (.field .address, "전체 주소를 입력해주세요.")] }
        .email "a@b.c").formData .email = "a@b.c" ∧
    getFormField (handleChange
        { initialState with errors :=
            [(.field .email, "이메일 주소를 입력해주세요."),
             (.field .address, "전체 주소를 입력해주세요.")] }
        .email "a@b.c").formData .address = "" ∧
    lookupError (handleChange
        { initialState with errors :=
            [(.field .email, "이메일 주소를 입력해주세요."),
             (.field .address, "전체 주소를 입력해주세요.")] }
        .email "a@b.c").errors (.field .email) = none ∧
    lookupError (handleChange
        { initialState with errors :=
            [(.field .email, "이메일 주소를 입력해주세요."),
             (.field .address, "전체 주소를 입력해주세요.")] }
        .email "a@b.c").errors (.field .address) = some "전체 주소를 입력해주세요." := by
  have h := handleChange_spec
    { initialState with errors :=
        [(.field .email, "이메일 주소를 입력해주세요."),
         (.field .address, "전체 주소를 입력해주세요.")] }
    .email "a@b.c"
  refine ⟨h.1, ?_, h.2.2.1, ?_⟩
  · have := h.2.1 .address (by decide)
    simpa [initialState, emptyFormData, getFormField] using this
  · have := h.2.2.2 (.field .address) (by decide)
    simpa using this

/-- C5: on the pledge track, `pledgeChecked` can only turn from false to true
through the modal confirm action; the checkbox toggling on merely opens the
modal and leaves `pledgeChecked` false; the modal confirm sets it true and
closes the modal; the checkbox toggling off sets it false with no confirmation
step. -/
theorem pledge_track_spec :
    (∀ (st : AppState) (e : PledgeEvent),
      (pledgeStep st e).pledgeChecked = true → st.pledgeChecked = false →
        e = .modalConfirm) ∧
    (∀ st : AppState, st.pledgeChecked = false →
      (pledgeStep st .toggleOn).pledgeChecked = false ∧
        (pledgeStep st .toggleOn).isPledgeModalOpen = true) ∧
    (∀ st : AppState, st.isPledgeModalOpen = true →
      (pledgeStep st .modalConfirm).pledgeChecked = true ∧
        (pledgeStep st .modalConfirm).isPledgeModalOpen = false) ∧
    (∀ st : AppState, (pledgeStep st .toggleOff).pledgeChecked = false) := by
  refine ⟨?_, ?_, ?_, ?_⟩
  · intro st e hpost hpre
    cases e with
    | toggleOn => simp [pledgeStep, hpre] at hpost
    | toggleOff => simp [pledgeStep] at hpost
    | modalConfirm => rfl
  · intro st h
    simp [pledgeStep, h]
  · intro st h
    simp [pledgeStep, h]
  · intro st
    simp [pledgeStep]

/-- Witness for C5: from the initial state, checking the checkbox opens the
modal without accepting the pledge, and confirming from there accepts it. -/
theorem pledge_track_spec_witness :
    ((pledgeStep initialState .toggleOn).pledgeChecked = false ∧
      (pledgeStep initialState .toggleOn).isPledgeModalOpen = true) ∧
    ((pledgeStep (pledgeStep initialState .toggleOn) .modalConfirm).pledgeChecked = true ∧
      (pledgeStep (pledgeStep initialState .toggleOn) .modalConfirm).isPledgeModalOpen = false) :=
  ⟨pledge_track_spec.2.1 initialState (by decide),
   pledge_track_spec.2.2.1 (pledgeStep initialState .toggleOn) (by decide)⟩

/-- C6: when validation passes but the pledge is not accepted, the submit
handler raises the alert (a channel distinct from field errors) and returns
without entering the composition pipeline; the pipeline runs exactly when
validation passes and the pledge is accepted. -/
theorem handleSubmit_gate (st : AppState) (dom : ErrorKey → Bool)
    (formattedDate : String) (capture : Except CaptureError Canvas) :
    ((validateForm st.formData st.profileImage).2 = true → st.pledgeChecked = false →
      (handleSubmit st dom formattedDate capture).2 =
        .gateAlert "서약서에 동의해주셔야 제출이 가능합니다.") ∧
    (∀ r : CompositionResult,
      (handleSubmit st dom formattedDate capture).2 = .pipelineRan r →
      (validateForm st.formData st.profileImage).2 = true ∧ st.pledgeChecked = true) := by
  constructor
  · intro hv hp
    simp [handleSubmit, hv, hp]
  · intro r hr
    by_cases hv : (validateForm st.formData st.profileImage).2 = true
    · by_cases hp : st.pledgeChecked = true
      · exact ⟨hv, hp⟩
      · simp [handleSubmit, hv, hp] at hr
    · simp only [handleSubmit] at hr
      rw [if_neg (by simpa using hv)] at hr
      cases hr

/-- Witness for C6: the fully filled state with the pledge unconfirmed gets
the gate alert; the same state with the pledge confirmed, on a successful
capture, runs the pipeline and indeed satisfies both gate conditions. -/
theorem handleSubmit_gate_witness :
    ((handleSubmit sampleStatePledgeOff (fun _ => true) "2025 10 11"
        (.ok { width := 1000, height := 1500 })).2 =
      .gateAlert "서약서에 동의해주셔야 제출이 가능합니다.") ∧
    ((validateForm sampleStatePledgeOn.formData sampleStatePledgeOn.profileImage).2 = true ∧
      sampleStatePledgeOn.pledgeChecked = true) := by
  have hrun : (handleSubmit sampleStatePledgeOn (fun _ => true) "2025 10 11"
      (.ok { width := 1000, height := 1500 })).2 =
        .pipelineRan (runComposition sampleStatePledgeOn.formData.nameKorean "2025 10 11"
          (.ok { width := 1000, height := 1500 })) := by
    simp only [handleSubmit]
    rw [if_pos (show (validateForm sampleStatePledgeOn.formData
        sampleStatePledgeOn.profileImage).2 = true by decide)]
    rw [if_pos (show sampleStatePledgeOn.pledgeChecked = true by decide)]
  exact ⟨(handleSubmit_gate sampleStatePledgeOff (fun _ => true) "2025 10 11"
      (.ok { width := 1000, height := 1500 })).1 (by decide) (by decide),
    (handleSubmit_gate sampleStatePledgeOn (fun _ => true) "2025 10 11"
      (.ok { width := 1000, height := 1500 })).2 _ hrun⟩

/-- C7: the code evaluated at the failing input.  At the initial state (fresh
session, every required value missing, the stored error state still empty) a
submit attempt fails validation with 14 freshly computed errors, yet focuses
and scrolls nothing — even when every field element exists in the document —
because `Object.keys(errors)[0]` reads the pre-submit error state. -/
theorem handleSubmit_focus_reads_stale_errors :
    (handleSubmit initialState (fun _ => true) "2025 10 11"
        (.ok { width := 1000, height := 1500 })).2 = .validationFailed none ∧
      (validateForm initialState.formData initialState.profileImage).1.length = 14 ∧
      initialState.errors = [] := by
  refine ⟨by decide, by decide, rfl⟩

/-- C8 as stated is false on the code: a run of the composition pipeline whose
capture step fails ends with the interaction-only elements still hidden (the
restore statement after the `await` never executes). -/
theorem runComposition_failure_leaves_hidden :
    (runComposition "홍길동" "2025 10 11" (.error .captureFailed)).printIgnoreVisible
      = false := rfl

/-- C8 (amended): the interaction-only elements end a pipeline run visible
exactly when the capture step succeeded — restored on the success path, left
hidden when the capture fails. -/
theorem runComposition_visibility (nameKorean formattedDate : String)
    (capture : Except CaptureError Canvas) :
    (runComposition nameKorean formattedDate capture).printIgnoreVisible =
      capture.isOk := by
  cases capture <;> rfl

/-- C10: the submit button is disabled exactly when the pledge is unaccepted,
and whenever it is enabled — the only way the handler fires from the rendered
interface — the handler's outcome is never the gate-violation alert. -/
theorem submitButton_gate (st : AppState) :
    (submitButtonDisabled st = true ↔ st.pledgeChecked = false) ∧
    (submitButtonDisabled st = false →
      ∀ (dom : ErrorKey → Bool) (formattedDate : String)
        (capture : Except CaptureError Canvas) (msg : String),
        (handleSubmit st dom formattedDate capture).2 ≠ .gateAlert msg) := by
  constructor
  · simp [submitButtonDisabled]
  · intro hen dom formattedDate capture msg hcontra
    have hp : st.pledgeChecked = true := by
      simpa [submitButtonDisabled] using hen
    by_cases hv : (validateForm st.formData st.profileImage).2 = true
    · simp [handleSubmit, hv, hp] at hcontra
    · simp only [handleSubmit] at hcontra
      rw [if_neg (by simpa using hv)] at hcontra
      cases hcontra

/-- Witness for C10: at the fully filled, pledge-accepted state the button is
enabled and a submit attempt does not produce the gate alert. -/
theorem submitButton_gate_witness :
    (handleSubmit sampleStatePledgeOn (fun _ => true) "2025 10 11"
        (.ok { width := 1000, height := 1500 })).2 ≠
      .gateAlert "서약서에 동의해주셔야 제출이 가능합니다." :=
  (submitButton_gate sampleStatePledgeOn).2 (by decide) (fun _ => true) "2025 10 11"
    (.ok { width := 1000, height := 1500 }) "서약서에 동의해주셔야 제출이 가능합니다."

/-- C9: for any positive capture size, the scale factor is
min(availableWidth/w, availableHeight/h); it exceeds 1 exactly when the capture
is smaller than the available area in both dimensions; and the scaled capture
lies fully inside the margined region, with equal leftover space left/right of
it and equal leftover space above/below it within the available area. -/
theorem composition_geometry (c : Canvas) (hw : 0 < c.width) (hh : 0 < c.height) :
    ratio c = min (availableWidth / c.width) (availableHeight / c.height) ∧
    (1 < ratio c ↔ c.width < availableWidth ∧ c.height < availableHeight) ∧
    contentMargin ≤ drawX c ∧
    drawX c + newWidth c ≤ a4Width - contentMargin ∧
    contentStartY ≤ drawY c ∧
    drawY c + newHeight c ≤ a4Height - contentMargin ∧
    drawX c - contentMargin = (a4Width - contentMargin) - (drawX c + newWidth c) ∧
    drawY c - contentStartY =
      (contentStartY + availableHeight) - (drawY c + newHeight c) := by
  have haw : (0 : ℚ) < availableWidth := by
    norm_num [availableWidth, a4Width, contentMargin]
  have hah : (0 : ℚ) < availableHeight := by
    norm_num [availableHeight, a4Height, contentStartY, contentMargin]
  have hnw : newWidth c ≤ availableWidth := by
    calc c.width * ratio c ≤ c.width * (availableWidth / c.width) :=
          mul_le_mul_of_nonneg_left (min_le_left _ _) hw.le
      _ = availableWidth := by field_simp
  have hnh : newHeight c ≤ availableHeight := by
    calc c.height * ratio c ≤ c.height * (availableHeight / c.height) :=
          mul_le_mul_of_nonneg_left (min_le_right _ _) hh.le
      _ = availableHeight := by field_simp
  have hconsts : availableWidth = 1140 ∧ availableHeight = 1544 ∧ a4Width = 1240 ∧
      a4Height = 1754 ∧ contentMargin = 50 ∧ contentStartY = 160 := by
    norm_num [availableWidth, availableHeight, a4Width, a4Height, contentMargin, contentStartY]
  obtain ⟨e1, e2, e3, e4, e5, e6⟩ := hconsts
  refine ⟨rfl, ?_, ?_, ?_, ?_, ?_, ?_, ?_⟩
  · rw [ratio, lt_min_iff, one_lt_div hw, one_lt_div hh]
  · rw [drawX, e3, e5]
    rw [e1] at hnw
    linarith
  · rw [drawX, e3, e5]
    rw [e1] at hnw
    linarith [show c.width * ratio c = newWidth c from rfl]
  · rw [drawY, e6]
    rw [e2] at hnh
    linarith
  · rw [drawY, e4, e5, e6, e2]
    rw [e2] at hnh
    linarith [show c.height * ratio c = newHeight c from rfl]
  · rw [drawX, e3, e5]
    ring
  · rw [drawY, e6, e2]
    ring

/-- Witness for C9: at a concrete 1000×1500 capture the theorem applies and,
for instance, yields horizontal centering inside the margins. -/
theorem composition_geometry_witness :
    (0 : ℚ) < 1000 ∧ (0 : ℚ) < 1500 ∧
      (drawX { width := 1000, height := 1500 } - contentMargin =
        (a4Width - contentMargin) -
          (drawX { width := 1000, height := 1500 } +
            newWidth { width := 1000, height := 1500 })) :=
  ⟨by norm_num, by norm_num,
    (composition_geometry { width := 1000, height := 1500 }
      (by norm_num) (by norm_num)).2.2.2.2.2.2.1⟩
